import Mathlib

/-!
Shallow embedding of the BADSEEDSOIL analytics pipeline
(`src/netlify/functions/analytics-track.js`, `src/netlify/functions/analytics-get.mjs`,
and the combined ESM tracker in `src/unnamed/part_000`).

Modelling conventions:
* machine numbers are `Nat`/`Int` (epoch milliseconds as `Nat`, durations as `Int`
  since `data.duration` is client supplied);
* JS objects used as string-keyed counters are total functions `String → Nat`
  (`obj[k] = (obj[k] || 0) + 1` is a pointwise update; only lookups are ever read);
* JS truthiness on optional string/number fields is modelled explicitly
  (`none` and `some ""` / `some 0` are falsy);
* `new URL(ref).hostname` is a platform primitive, not repository code, so the fold
  is parameterised by an extractor `urlHostname : String → Option String`
  (`none` models the `catch {}` branch on a malformed URL);
* `new Date(ts).getHours()` is hour-of-day with the server clock taken as UTC.
-/

set_option maxHeartbeats 1000000

namespace Soil

/-- The twelve accepted event kinds: `VALID_EVENTS` in `analytics-track.js`
and in the ESM tracker of `part_000`. -/
def VALID_EVENTS : List String :=
  ["page_view", "page_exit", "page_hidden", "page_visible",
   "card_hover_start", "card_hover_end", "card_click",
   "iframe_hover_start", "iframe_hover_end", "iframe_ready",
   "session_start", "session_end"]

/-- Push a string when absent: `if (!xs.includes(v)) xs.push(v)`, and also the
behaviour of `Set.add` on a JS `Set` kept in insertion order. -/
def addUnique (l : List String) (x : String) : List String :=
  if x ∈ l then l else l ++ [x]

/-- Counter-object bump: `obj[k] = (obj[k] || 0) + 1`. -/
def bumpKey (f : String → Nat) (k : String) : String → Nat :=
  fun x => if x = k then f k + 1 else f x

/-- `arr[i]++` on a fixed-length counter array. -/
def bumpAt (l : List Nat) (i : Nat) : List Nat :=
  l.set i (l.getD i 0 + 1)

/-- `new Date(ts).getHours()` for an epoch-millisecond instant, server clock UTC. -/
def getHours (ts : Nat) : Nat := ts / 3600000 % 24

/-- A `{voice, value, agent}` counter object (`cardHovers`, `cardClicks`). -/
structure CardNat where
  voice : Nat
  value : Nat
  agent : Nat
deriving DecidableEq

/-- The guarded bump `if (card && obj[card] !== undefined) obj[card]++`:
keys outside the three fixed ones are dropped, never defaulted. -/
def CardNat.incIfKnown (m : CardNat) (c : String) : CardNat :=
  if c = "voice" then { m with voice := m.voice + 1 }
  else if c = "value" then { m with value := m.value + 1 }
  else if c = "agent" then { m with agent := m.agent + 1 }
  else m

/-- A `{voice, value, agent}` duration accumulator (`cardHoverTime`, in ms). -/
structure CardInt where
  voice : Int
  value : Int
  agent : Int
deriving DecidableEq

/-- The guarded accumulation `if (card && obj[card] !== undefined) obj[card] += d`. -/
def CardInt.addIfKnown (m : CardInt) (c : String) (d : Int) : CardInt :=
  if c = "voice" then { m with voice := m.voice + d }
  else if c = "value" then { m with value := m.value + d }
  else if c = "agent" then { m with agent := m.agent + d }
  else m

/-- A stored raw event record (`eventRecord` built by the tracking handler).
`clientCountry`/`clientReferer` are the `client` snapshot fields; both are
always-present strings (defaults `"unknown"` / `"direct"`). -/
structure EventRecord where
  event : String
  page : String
  card : Option String
  dataDuration : Option Int
  sessionId : Option String
  visitorHash : String
  timestamp : Nat
  serverTime : Nat
  clientCountry : String
  clientReferer : String
deriving DecidableEq

/-- The per-day aggregate record stored under `stats/<date>`.
The local-dev variant has no `lastUpdated` property; it is modelled by the same
structure with `lastUpdated` left at its initial value. -/
structure Stats where
  date : String
  pageViews : Nat
  uniqueVisitors : List String
  cardHovers : CardNat
  cardClicks : CardNat
  cardHoverTime : CardInt
  sessions : Nat
  totalSessionDuration : Int
  countries : String → Nat
  referers : String → Nat
  hourlyActivity : List Nat
  lastUpdated : Nat

/-- The zero-valued aggregate created when no record exists yet for the date. -/
def initStats (date : String) (now : Nat) : Stats :=
  { date := date, pageViews := 0, uniqueVisitors := [],
    cardHovers := ⟨0, 0, 0⟩, cardClicks := ⟨0, 0, 0⟩, cardHoverTime := ⟨0, 0, 0⟩,
    sessions := 0, totalSessionDuration := 0,
    countries := fun _ => 0, referers := fun _ => 0,
    hourlyActivity := List.replicate 24 0, lastUpdated := now }

/-- The zero-valued local-dev aggregate (`localStore.stats[today] = {...}`); the
JS literal has no `lastUpdated` key, modelled as the initial value `0`. -/
def initLocalStats (date : String) : Stats := initStats date 0

/-- The `switch (event.event)` dispatch shared verbatim by `updateProductionStats`
(`analytics-track.js`), `updateStats` (`part_000`) and the local-dev branch of
`exports.handler`. Truthiness guards: `event.card` and `event.data?.duration`
must be present and nonempty / nonzero. -/
def applyKind (stats : Stats) (e : EventRecord) : Stats :=
  if e.event = "page_view" then
    { stats with pageViews := stats.pageViews + 1,
                 uniqueVisitors := addUnique stats.uniqueVisitors e.visitorHash }
  else if e.event = "session_start" then
    { stats with sessions := stats.sessions + 1 }
  else if e.event = "card_hover_start" then
    match e.card with
    | some c => if c ≠ "" then { stats with cardHovers := stats.cardHovers.incIfKnown c } else stats
    | none => stats
  else if e.event = "card_hover_end" then
    match e.card, e.dataDuration with
    | some c, some d =>
        if c ≠ "" ∧ d ≠ 0 then
          { stats with cardHoverTime := stats.cardHoverTime.addIfKnown c d }
        else stats
    | _, _ => stats
  else if e.event = "card_click" then
    match e.card with
    | some c => if c ≠ "" then { stats with cardClicks := stats.cardClicks.incIfKnown c } else stats
    | none => stats
  else if e.event = "session_end" then
    match e.dataDuration with
    | some d =>
        if d ≠ 0 then
          { stats with totalSessionDuration := stats.totalSessionDuration + d }
        else stats
    | none => stats
  else stats

/-- The always-applied country section:
`if (event.client?.country && event.client.country !== 'unknown')`. -/
def countryStep (stats : Stats) (e : EventRecord) : Stats :=
  if e.clientCountry ≠ "" ∧ e.clientCountry ≠ "unknown" then
    { stats with countries := bumpKey stats.countries e.clientCountry }
  else stats

/-- The always-applied referer section of the production folds:
`if (event.client?.referer && event.client.referer !== 'direct')` then
`new URL(referer).hostname` under `try`, with a silent `catch {}` modelled by
`urlHostname _ = none`. -/
def refererStep (urlHostname : String → Option String) (stats : Stats)
    (e : EventRecord) : Stats :=
  if e.clientReferer ≠ "" ∧ e.clientReferer ≠ "direct" then
    match urlHostname e.clientReferer with
    | some host => { stats with referers := bumpKey stats.referers host }
    | none => stats
  else stats

/-- The always-applied hourly-activity bump, indexed by the event's own
timestamp: `stats.hourlyActivity[new Date(event.timestamp).getHours()]++`. -/
def hourStep (stats : Stats) (e : EventRecord) : Stats :=
  { stats with hourlyActivity := bumpAt stats.hourlyActivity (getHours e.timestamp) }

/-- The production fold `updateProductionStats` / `updateStats`: read the stored
aggregate (or initialise), dispatch on kind, then country, referer and hourly
sections, then `lastUpdated = Date.now()`.  The store read/write around it is
handled by `handler`. -/
def updateStats (urlHostname : String → Option String) (now : Nat) (date : String)
    (stats0 : Option Stats) (e : EventRecord) : Stats :=
  let stats := stats0.getD (initStats date now)
  let stats := applyKind stats e
  let stats := countryStep stats e
  let stats := refererStep urlHostname stats e
  let stats := hourStep stats e
  { stats with lastUpdated := now }

/-- The local-dev fold inlined in the `else` branch of `exports.handler`
(`analytics-track.js` lines 151–192): the same kind dispatch, then the country
and hourly sections — it has no referer section and never sets `lastUpdated`. -/
def localFold (stats : Stats) (e : EventRecord) : Stats :=
  hourStep (countryStep (applyKind stats e) e) e

/-- Signed 32-bit wrap of an integer (the effect of JS `| 0` style coercions
and of `hash & hash`). -/
def int32Wrap (n : Int) : Int := (n + 2 ^ 31) % 2 ^ 32 - 2 ^ 31

/-- One step of `hashString`: `hash = ((hash << 5) - hash) + char; hash = hash & hash`.
`hash << 5` itself wraps to a signed 32-bit value before the subtraction. -/
def hashStep (h : Int) (c : Nat) : Int :=
  int32Wrap (int32Wrap (h * 32) - h + c)

/-- Base-36 digit character, lowercase as in JS `Number.prototype.toString(36)`. -/
def base36Digit (d : Nat) : Char :=
  if d < 10 then Char.ofNat (48 + d) else Char.ofNat (97 + (d - 10))

/-- Fuel-indexed base-36 digit expansion (most significant first). -/
def toBase36Go : Nat → Nat → List Char
  | 0, _ => []
  | fuel + 1, n =>
    if n = 0 then [] else toBase36Go fuel (n / 36) ++ [base36Digit (n % 36)]

/-- `n.toString(36)` for a natural number. -/
def natToBase36 (n : Nat) : String :=
  if n = 0 then "0" else ⟨toBase36Go (n + 1) n⟩

/-- `hashString` from the trackers: the 32-bit rolling hash of the string's
char codes, then `Math.abs(hash).toString(36)`. -/
def hashString (s : String) : String :=
  natToBase36 (s.data.foldl (fun h ch => hashStep h ch.toNat) 0).natAbs

/-- The parsed JSON request body `{event, page?, card?, data?, sessionId?, timestamp?}`;
`dataDuration` is `(data || {}).duration`. -/
structure RequestBody where
  event : Option String
  page : Option String
  card : Option String
  dataDuration : Option Int
  sessionId : Option String
  timestamp : Option Nat
deriving DecidableEq

/-- The client snapshot extracted from request headers before validation
(defaults `"unknown"` / `"direct"` already applied). -/
structure ClientInfo where
  ip : String
  userAgent : String
  referer : String
  country : String
deriving DecidableEq

/-- `v || default` on an optional string field (empty string is falsy). -/
def strOr (v : Option String) (d : String) : String :=
  match v with
  | some s => if s = "" then d else s
  | none => d

/-- `v || null` on an optional string field. -/
def optStrOrNull (v : Option String) : Option String :=
  match v with
  | some s => if s = "" then none else some s
  | none => none

/-- `v || Date.now()` on the optional client timestamp (0 is falsy). -/
def natOr (v : Option Nat) (d : Nat) : Nat :=
  match v with
  | some n => if n = 0 then d else n
  | none => d

/-- The `eventRecord` object built by the tracking handler after validation. -/
def buildEventRecord (now : Nat) (client : ClientInfo) (body : RequestBody)
    (t : String) : EventRecord :=
  { event := t,
    page := strOr body.page "gateway",
    card := optStrOrNull body.card,
    dataDuration := body.dataDuration,
    sessionId := optStrOrNull body.sessionId,
    visitorHash := hashString (client.ip ++ client.userAgent.take 50),
    timestamp := natOr body.timestamp now,
    serverTime := now,
    clientCountry := client.country,
    clientReferer := client.referer }

/-- Outcome of one tracking call; `ok` stands for the 200 `{success: true, eventKey}`
response and `invalidEvent` for the 400 `{error: 'Invalid event type'}` response. -/
inductive HandlerResult where
  | ok
  | invalidEvent
deriving DecidableEq

/-- The store as seen by one tracking call: the list of stored raw event records
(in write order) and the `stats/<date>` aggregates. -/
structure StoreState where
  events : List EventRecord
  stats : String → Option Stats

/-- The tracking handler `exports.handler` (after method/CORS handling and body
parse): validate the kind against `VALID_EVENTS`, then either the production
branch (store the raw record, fold into today's aggregate) or the local-dev
branch (push into `localStore.events` capped at 1000, fold with `localFold`). -/
def handler (urlHostname : String → Option String) (isProd : Bool) (now : Nat)
    (today : String) (client : ClientInfo) (st : StoreState) (body : RequestBody) :
    StoreState × HandlerResult :=
  match body.event with
  | none => (st, .invalidEvent)
  | some t =>
    if t = "" ∨ t ∉ VALID_EVENTS then (st, .invalidEvent)
    else
      let record := buildEventRecord now client body t
      if isProd then
        let newStats := updateStats urlHostname now today (st.stats today) record
        ({ events := st.events ++ [record],
           stats := fun d => if d = today then some newStats else st.stats d }, .ok)
      else
        let evs := st.events ++ [record]
        let evs2 := if 1000 < evs.length then evs.drop (evs.length - 1000) else evs
        let s0 := (st.stats today).getD (initLocalStats today)
        let newStats := localFold s0 record
        ({ events := evs2,
           stats := fun d => if d = today then some newStats else st.stats d }, .ok)

/-- The running `totals` accumulator of `getSummaryStats` / `getProductionSummary`. -/
structure Totals where
  pageViews : Nat
  uniqueVisitors : List String
  cardHovers : CardNat
  cardClicks : CardNat
  cardHoverTime : CardInt
  sessions : Nat
  totalSessionDuration : Int
  countries : String → Nat
  referers : String → Nat
  hourlyActivity : List Nat

/-- The initial `totals` literal of the summary path. -/
def initTotals : Totals :=
  { pageViews := 0, uniqueVisitors := [],
    cardHovers := ⟨0, 0, 0⟩, cardClicks := ⟨0, 0, 0⟩, cardHoverTime := ⟨0, 0, 0⟩,
    sessions := 0, totalSessionDuration := 0,
    countries := fun _ => 0, referers := fun _ => 0,
    hourlyActivity := List.replicate 24 0 }

/-- Merge a mapping of key counts into the accumulated one
(`totals.m[k] = (totals.m[k] || 0) + count` over `Object.entries`). -/
def addCounts (t f : String → Nat) : String → Nat := fun k => t k + f k

/-- Element-wise sum of the 24-slot hourly arrays
(`stats.hourlyActivity.forEach((count, hour) => totals.hourlyActivity[hour] += count)`). -/
def addHourly (t s : List Nat) : List Nat :=
  t.zipWith (· + ·) s ++ t.drop s.length

/-- One iteration of the summary merge loop: fold a found day's aggregate into
`totals`.  Scalars and per-card maps are summed, `uniqueVisitors` is merged as a
set (push if absent), `countries`/`referers` are summed by key, `hourlyActivity`
element-wise.  The `|| 0` guards in the source are identities here because every
stored aggregate carries all fields. -/
def mergeTotals (t : Totals) (s : Stats) : Totals :=
  { pageViews := t.pageViews + s.pageViews,
    sessions := t.sessions + s.sessions,
    totalSessionDuration := t.totalSessionDuration + s.totalSessionDuration,
    uniqueVisitors := s.uniqueVisitors.foldl addUnique t.uniqueVisitors,
    cardHovers := ⟨t.cardHovers.voice + s.cardHovers.voice,
                   t.cardHovers.value + s.cardHovers.value,
                   t.cardHovers.agent + s.cardHovers.agent⟩,
    cardClicks := ⟨t.cardClicks.voice + s.cardClicks.voice,
                   t.cardClicks.value + s.cardClicks.value,
                   t.cardClicks.agent + s.cardClicks.agent⟩,
    cardHoverTime := ⟨t.cardHoverTime.voice + s.cardHoverTime.voice,
                      t.cardHoverTime.value + s.cardHoverTime.value,
                      t.cardHoverTime.agent + s.cardHoverTime.agent⟩,
    countries := addCounts t.countries s.countries,
    referers := addCounts t.referers s.referers,
    hourlyActivity := addHourly t.hourlyActivity s.hourlyActivity }

/-- The range-to-day-count mapping of the summary path:
`range === '1d' ? 1 : range === '7d' ? 7 : 30` — anything that is not exactly
`"1d"` or `"7d"` falls through to 30 days. -/
def daysForRange (range : String) : Nat :=
  if range = "1d" then 1 else if range = "7d" then 7 else 30

/-- The accumulated totals of `getSummaryStats store range`: walk the last
`daysForRange range` calendar dates ending today (`dateStr i` is the ISO date
`i` days back, a platform `Date` computation kept abstract), skip missing days,
and merge the found aggregates in order. -/
def summaryTotals (dateStr : Nat → String) (store : String → Option Stats)
    (range : String) : Totals :=
  (((List.range (daysForRange range)).map dateStr).filterMap store).foldl
    mergeTotals initTotals

/-- `Math.round(p / q)` for integers with `q > 0`:
`round(x) = floor(x + 1/2)`, so `round(p/q) = fdiv (2p + q) (2q)`.  Every
division in the formatters is guarded by a positivity test on `q`. -/
def jsRound (p q : Int) : Int := Int.fdiv (2 * p + q) (2 * q)

/-- `Math.max(...arr)` for a list of naturals (nonempty in every use site). -/
def listMax (l : List Nat) : Nat := l.foldr max 0

/-- `totals.hourlyActivity.indexOf(Math.max(...totals.hourlyActivity))`:
first index of the maximum.  (JS yields -1 on an empty array; the arrays here
always have 24 slots, and for a nonempty list the maximum is a member.) -/
def peakHourOf (l : List Nat) : Nat := l.indexOf (listMax l)

/-- `totalHovers` in `formatSummaryResponse`. -/
def totalHoversOf (t : Totals) : Nat :=
  t.cardHovers.voice + t.cardHovers.value + t.cardHovers.agent

/-- `totalClicks` in `formatSummaryResponse`. -/
def totalClicksOf (t : Totals) : Nat :=
  t.cardClicks.voice + t.cardClicks.value + t.cardClicks.agent

/-- `avgSessionDuration` (seconds): `Math.round(total / sessions / 1000)`,
0 when there are no sessions. -/
def avgSessionDurationOf (t : Totals) : Int :=
  if 0 < t.sessions then jsRound t.totalSessionDuration (t.sessions * 1000) else 0

/-- `bounceRate`: `Math.round((1 - totalClicks / pageViews) * 100)` when both
`sessions > 0` and `pageViews > 0`, else 0.  `(1 - c/v) * 100 = (v - c) * 100 / v`
exactly. -/
def bounceRateOf (t : Totals) : Int :=
  if 0 < t.sessions ∧ 0 < t.pageViews then
    jsRound (((t.pageViews : Int) - (totalClicksOf t : Int)) * 100) (t.pageViews : Int)
  else 0

/-- One entry of the `cardEngagement` object. -/
structure CardEngagement where
  hovers : Nat
  clicks : Nat
  avgHoverTime : Int
  clickRate : Int
  share : Int
deriving DecidableEq

/-- The per-card body of the `['voice','value','agent'].forEach` loop in
`formatSummaryResponse`. -/
def cardEngagementOf (hovers clicks : Nat) (hoverTime : Int) (totalHovers : Nat) :
    CardEngagement :=
  { hovers := hovers, clicks := clicks,
    avgHoverTime := if 0 < hovers then jsRound hoverTime (hovers : Int) else 0,
    clickRate := if 0 < hovers then jsRound ((clicks : Int) * 100) (hovers : Int) else 0,
    share := if 0 < totalHovers then jsRound ((hovers : Int) * 100) (totalHovers : Int) else 0 }

/-- The summary response fields that depend on the merged totals.  The top-10
country/referer lists enumerate object entries of the count maps; no claim
touches them and they are not modelled. -/
structure SummaryResponse where
  range : String
  pageViews : Nat
  uniqueVisitors : Nat
  sessions : Nat
  avgSessionDuration : Int
  bounceRate : Int
  cardVoice : CardEngagement
  cardValue : CardEngagement
  cardAgent : CardEngagement
  hourlyActivity : List Nat
  peakHour : Nat
deriving DecidableEq

/-- `formatSummaryResponse(totals, dailyStats, range)` restricted to the
totals-derived fields (the `dailyStats` echo is a per-day projection no claim
touches). -/
def formatSummaryResponse (t : Totals) (range : String) : SummaryResponse :=
  { range := range,
    pageViews := t.pageViews,
    uniqueVisitors := t.uniqueVisitors.length,
    sessions := t.sessions,
    avgSessionDuration := avgSessionDurationOf t,
    bounceRate := bounceRateOf t,
    cardVoice := cardEngagementOf t.cardHovers.voice t.cardClicks.voice
      t.cardHoverTime.voice (totalHoversOf t),
    cardValue := cardEngagementOf t.cardHovers.value t.cardClicks.value
      t.cardHoverTime.value (totalHoversOf t),
    cardAgent := cardEngagementOf t.cardHovers.agent t.cardClicks.agent
      t.cardHoverTime.agent (totalHoversOf t),
    hourlyActivity := t.hourlyActivity,
    peakHour := peakHourOf t.hourlyActivity }

/-- The whole summary read path for a range: merge the window, then format. -/
def getSummaryStats (dateStr : Nat → String) (store : String → Option Stats)
    (range : String) : SummaryResponse :=
  formatSummaryResponse (summaryTotals dateStr store range) range

/-- The accumulator threaded through the `recentEvents.forEach` pass of
`formatRealtimeResponse`: the `activeVisitors` set (insertion order), the
`recentHovers`/`recentClicks` card counters, and `recentPageViews`.
A `card_hover_start`/`card_click` whose card is outside the three fixed keys
writes `NaN` to a key the response never reads; `incIfKnown` drops it. -/
structure RealtimeAcc where
  activeVisitors : List String
  recentHovers : CardNat
  recentClicks : CardNat
  recentPageViews : Nat

/-- `if (event.timestamp >= fiveMinutesAgo) activeVisitors.add(event.visitorHash)`. -/
def rtActiveStep (fiveMinutesAgo : Nat) (acc : RealtimeAcc) (e : EventRecord) :
    RealtimeAcc :=
  if fiveMinutesAgo ≤ e.timestamp then
    { acc with activeVisitors := addUnique acc.activeVisitors e.visitorHash }
  else acc

/-- `if (event.event === 'page_view') recentPageViews++`. -/
def rtPageViewStep (acc : RealtimeAcc) (e : EventRecord) : RealtimeAcc :=
  if e.event = "page_view" then
    { acc with recentPageViews := acc.recentPageViews + 1 }
  else acc

/-- `if (event.event === 'card_hover_start' && event.card) recentHovers[event.card]++`. -/
def rtHoverStep (acc : RealtimeAcc) (e : EventRecord) : RealtimeAcc :=
  if e.event = "card_hover_start" then
    match e.card with
    | some c =>
      if c ≠ "" then { acc with recentHovers := acc.recentHovers.incIfKnown c } else acc
    | none => acc
  else acc

/-- `if (event.event === 'card_click' && event.card) recentClicks[event.card]++`. -/
def rtClickStep (acc : RealtimeAcc) (e : EventRecord) : RealtimeAcc :=
  if e.event = "card_click" then
    match e.card with
    | some c =>
      if c ≠ "" then { acc with recentClicks := acc.recentClicks.incIfKnown c } else acc
    | none => acc
  else acc

/-- One iteration of the `forEach` pass over the retained events. -/
def realtimeStep (fiveMinutesAgo : Nat) (acc : RealtimeAcc) (e : EventRecord) :
    RealtimeAcc :=
  rtClickStep (rtHoverStep (rtPageViewStep (rtActiveStep fiveMinutesAgo acc e) e) e) e

/-- The projection applied to each streamed event:
`{event, card, timestamp, country: e.client?.country}`. -/
structure StreamEvent where
  event : String
  card : Option String
  timestamp : Nat
  country : String
deriving DecidableEq

def projectStreamEvent (e : EventRecord) : StreamEvent :=
  ⟨e.event, e.card, e.timestamp, e.clientCountry⟩

/-- Insert an event into a list already sorted by descending timestamp. -/
def insertByTsDesc (e : EventRecord) : List EventRecord → List EventRecord
  | [] => [e]
  | x :: xs =>
    if e.timestamp ≤ x.timestamp then x :: insertByTsDesc e xs else e :: x :: xs

/-- `.sort((a, b) => b.timestamp - a.timestamp)`: a sort by descending
timestamp (realised as insertion sort; only the ordering is observable). -/
def sortByTsDesc : List EventRecord → List EventRecord
  | [] => []
  | x :: xs => insertByTsDesc x (sortByTsDesc xs)

/-- The realtime report shape (`cardActivity` regrouped as two card counters). -/
structure RealtimeReport where
  generated : Nat
  activeVisitors : Nat
  pageViews : Nat
  hovers : CardNat
  clicks : CardNat
  eventStream : List StreamEvent
deriving DecidableEq

/-- `formatRealtimeResponse(recentEvents, now, fiveMinutesAgo)`: the single
counting pass over the retained 30-minute set, and the event stream sorted
descending by timestamp, truncated to 20 and projected. -/
def formatRealtimeResponse (recentEvents : List EventRecord) (now fiveMinutesAgo : Nat) :
    RealtimeReport :=
  let acc := recentEvents.foldl (realtimeStep fiveMinutesAgo) ⟨[], ⟨0, 0, 0⟩, ⟨0, 0, 0⟩, 0⟩
  { generated := now,
    activeVisitors := acc.activeVisitors.length,
    pageViews := acc.recentPageViews,
    hovers := acc.recentHovers,
    clicks := acc.recentClicks,
    eventStream := ((sortByTsDesc recentEvents).take 20).map projectStreamEvent }

/-- Membership in the five-minute activity window: `timestamp >= fiveMinutesAgo`. -/
def inWindow (fiveMinutesAgo : Nat) (e : EventRecord) : Bool :=
  decide (fiveMinutesAgo ≤ e.timestamp)

/-- Predicate for the realtime page-view count. -/
def isPageView (e : EventRecord) : Bool := e.event == "page_view"

/-- Predicate for the realtime per-card hover count. -/
def isHoverOn (c : String) (e : EventRecord) : Bool :=
  e.event == "card_hover_start" && e.card == some c

/-- Predicate for the realtime per-card click count. -/
def isClickOn (c : String) (e : EventRecord) : Bool :=
  e.event == "card_click" && e.card == some c

/-- A concrete event record builder for scenarios (fields not under test get
the tracker defaults). -/
def mkEvent (kind : String) (ts : Nat) (vh : String) : EventRecord :=
  { event := kind, page := "gateway", card := none, dataDuration := none,
    sessionId := none, visitorHash := vh, timestamp := ts, serverTime := ts,
    clientCountry := "unknown", clientReferer := "direct" }

/-- A page-view event carrying an external referer, exhibiting the divergence
between the production folds and the local-dev fold. -/
def refererEvent : EventRecord :=
  { mkEvent "page_view" 0 "v1" with clientReferer := "https://example.com/page" }

/-- A hostname extractor that parses exactly the URL of `refererEvent`
(standing in for `new URL(...).hostname`). -/
def exampleHost : String → Option String :=
  fun s => if s = "https://example.com/page" then some "example.com" else none

/-- A session-end event with a 1500 ms duration. -/
def sessionEndEvent : EventRecord :=
  { mkEvent "session_end" 0 "v1" with dataDuration := some 1500 }

/-- Realtime scenario (now = 2000000, five-minute cutoff = 1700000): three
events within the last five minutes from two distinct visitors, plus one
ten-minute-old event still inside the 30-minute window. -/
def rtOldEvent : EventRecord := mkEvent "page_view" 1400000 "c"

def rtScenario : List EventRecord :=
  [mkEvent "page_view" 1900000 "a", mkEvent "page_view" 1910000 "b",
   mkEvent "card_click" 1920000 "a", rtOldEvent]

/-- Merged totals where card clicks exceed page views by a fraction too small
for the rounded bounce rate to go negative. -/
def overshootTotals : Totals :=
  { initTotals with sessions := 1, pageViews := 1000, cardClicks := ⟨1001, 0, 0⟩ }

/-- Merged totals where card clicks exceed page views enough for a negative
bounce rate. -/
def steepOvershootTotals : Totals :=
  { initTotals with sessions := 1, pageViews := 1, cardClicks := ⟨3, 0, 0⟩ }

/-! ### Helper lemmas about the set-like visitor lists -/

theorem mem_addUnique {l : List String} {x y : String} :
    y ∈ addUnique l x ↔ y ∈ l ∨ y = x := by
  unfold addUnique
  split
  · rename_i hx
    constructor
    · exact fun h => Or.inl h
    · rintro (h | rfl)
      · exact h
      · exact hx
  · simp [List.mem_append]

theorem addUnique_nodup {l : List String} {x : String} (h : l.Nodup) :
    (addUnique l x).Nodup := by
  unfold addUnique
  split
  · exact h
  · rename_i hx
    refine List.nodup_append.mpr ⟨h, List.nodup_singleton x, ?_⟩
    intro y hy hmem
    rw [List.mem_singleton] at hmem
    subst hmem
    exact hx hy

theorem length_addUnique_le (l : List String) (x : String) :
    (addUnique l x).length ≤ l.length + 1 := by
  unfold addUnique
  split
  · omega
  · simp

theorem self_mem_addUnique (l : List String) (x : String) : x ∈ addUnique l x := by
  unfold addUnique
  split
  · assumption
  · simp

theorem addUnique_of_mem {l : List String} {x : String} (h : x ∈ l) :
    addUnique l x = l := by
  unfold addUnique
  rw [if_pos h]

theorem length_foldl_addUnique_le (m : List String) :
    ∀ a : List String, (m.foldl addUnique a).length ≤ a.length + m.length := by
  induction m with
  | nil => intro a; simp
  | cons x m ih =>
    intro a
    have h1 := ih (addUnique a x)
    have h2 := length_addUnique_le a x
    simp only [List.foldl_cons, List.length_cons]
    omega

theorem nodup_foldl_addUnique (m : List String) :
    ∀ a : List String, a.Nodup → (m.foldl addUnique a).Nodup := by
  induction m with
  | nil => exact fun a h => h
  | cons x m ih => exact fun a h => ih _ (addUnique_nodup h)

theorem mem_foldl_addUnique (m : List String) :
    ∀ (a : List String) (y : String), y ∈ m.foldl addUnique a ↔ y ∈ a ∨ y ∈ m := by
  induction m with
  | nil => simp
  | cons x m ih =>
    intro a y
    simp only [List.foldl_cons, List.mem_cons]
    rw [ih, mem_addUnique]
    tauto

theorem length_foldl_addUnique_nil (m : List String) :
    (m.foldl addUnique []).length = m.dedup.length := by
  have h1 : (m.foldl addUnique []).Nodup := nodup_foldl_addUnique m [] List.nodup_nil
  have h2 : (m.foldl addUnique []).toFinset = m.dedup.toFinset := by
    apply Finset.ext
    intro y
    simp only [List.mem_toFinset, List.mem_dedup]
    rw [mem_foldl_addUnique]
    simp
  calc (m.foldl addUnique []).length
      = (m.foldl addUnique []).toFinset.card := (List.toFinset_card_of_nodup h1).symm
    _ = m.dedup.toFinset.card := by rw [h2]
    _ = m.dedup.length := List.toFinset_card_of_nodup (List.nodup_dedup m)

/-! ### Field bookkeeping for the fold sections -/

theorem countryStep_fields (s : Stats) (e : EventRecord) :
    (countryStep s e).pageViews = s.pageViews ∧
    (countryStep s e).uniqueVisitors = s.uniqueVisitors ∧
    (countryStep s e).totalSessionDuration = s.totalSessionDuration := by
  unfold countryStep
  split <;> exact ⟨rfl, rfl, rfl⟩

theorem refererStep_fields (u : String → Option String) (s : Stats) (e : EventRecord) :
    (refererStep u s e).pageViews = s.pageViews ∧
    (refererStep u s e).uniqueVisitors = s.uniqueVisitors ∧
    (refererStep u s e).totalSessionDuration = s.totalSessionDuration := by
  unfold refererStep
  repeat' split
  all_goals exact ⟨rfl, rfl, rfl⟩

theorem applyKind_page_view (s : Stats) (e : EventRecord) (h : e.event = "page_view") :
    applyKind s e = { s with pageViews := s.pageViews + 1,
                             uniqueVisitors := addUnique s.uniqueVisitors e.visitorHash } := by
  unfold applyKind
  rw [if_pos h]

theorem applyKind_session_end (s : Stats) (e : EventRecord) (h : e.event = "session_end") :
    applyKind s e =
      match e.dataDuration with
      | some d =>
        if d ≠ 0 then { s with totalSessionDuration := s.totalSessionDuration + d } else s
      | none => s := by
  unfold applyKind
  rw [if_neg (by simp [h]), if_neg (by simp [h]), if_neg (by simp [h]),
      if_neg (by simp [h]), if_neg (by simp [h]), if_pos h]

theorem updateStats_page_view (u : String → Option String) (now : Nat) (date : String)
    (s0 : Option Stats) (e : EventRecord) (h : e.event = "page_view") :
    (updateStats u now date s0 e).pageViews = (s0.getD (initStats date now)).pageViews + 1 ∧
    (updateStats u now date s0 e).uniqueVisitors
      = addUnique (s0.getD (initStats date now)).uniqueVisitors e.visitorHash := by
  have hc := countryStep_fields (applyKind (s0.getD (initStats date now)) e) e
  have hr := refererStep_fields u
    (countryStep (applyKind (s0.getD (initStats date now)) e) e) e
  have hk := applyKind_page_view (s0.getD (initStats date now)) e h
  constructor
  · show (refererStep u (countryStep (applyKind (s0.getD (initStats date now)) e) e) e).pageViews
      = (s0.getD (initStats date now)).pageViews + 1
    rw [hr.1, hc.1, hk]
  · show (refererStep u (countryStep (applyKind (s0.getD (initStats date now)) e) e) e).uniqueVisitors
      = addUnique (s0.getD (initStats date now)).uniqueVisitors e.visitorHash
    rw [hr.2.1, hc.2.1, hk]

/-! ### Claims about the ingest path and the fold -/

/-- C1: a tracking request whose event kind is missing or outside the twelve
fixed enum values is rejected with the `Invalid event type` client error, and
the store is left untouched — no raw event record and no aggregate write, in
both the production and the local-dev branch. -/
theorem invalid_event_rejected (u : String → Option String) (isProd : Bool) (now : Nat)
    (today : String) (client : ClientInfo) (st : StoreState) (body : RequestBody)
    (h : ∀ t, body.event = some t → t ∉ VALID_EVENTS) :
    handler u isProd now today client st body = (st, HandlerResult.invalidEvent) := by
  unfold handler
  cases hb : body.event with
  | none => rfl
  | some t => exact if_pos (Or.inr (h t hb))

theorem invalid_event_rejected_witness :
    handler (fun _ => none) true 0 "2026-02-03" ⟨"1.2.3.4", "agent-string", "direct", "unknown"⟩
        ⟨[], fun _ => none⟩ ⟨some "card_dance", none, none, none, none, none⟩
      = (⟨[], fun _ => none⟩, HandlerResult.invalidEvent) :=
  invalid_event_rejected _ _ _ _ _ _ _ (fun t ht => by
    have h2 : some "card_dance" = some t := ht
    injection h2 with h3
    subst h3
    decide)

/-- C2 (divergence witness): on the very same page-view event with referer
`https://example.com/page`, the production fold `updateStats` increments
`referers["example.com"]` to 1, while the local-dev fold of `exports.handler`
leaves the `referers` map completely unchanged — the local-dev branch has no
referer section at all, even though it initialises the `referers: {}` field. -/
theorem local_fold_drops_referer :
    (updateStats exampleHost 0 "2026-01-01" (some (initLocalStats "2026-01-01"))
        refererEvent).referers "example.com" = 1 ∧
    (localFold (initLocalStats "2026-01-01") refererEvent).referers
      = (initLocalStats "2026-01-01").referers := by
  exact ⟨rfl, rfl⟩

/-- C3: the fold of a `session_end` event adds `data.duration` to
`totalSessionDuration` when the field is present, and leaves it unchanged when
it is absent.  (A present duration of 0 is falsy in the source and skipped,
which coincides with adding 0.) -/
theorem session_end_duration_fold (u : String → Option String) (now : Nat) (date : String)
    (s0 : Option Stats) (e : EventRecord) (h : e.event = "session_end") :
    (∀ d : Int, e.dataDuration = some d →
      (updateStats u now date s0 e).totalSessionDuration
        = (s0.getD (initStats date now)).totalSessionDuration + d) ∧
    (e.dataDuration = none →
      (updateStats u now date s0 e).totalSessionDuration
        = (s0.getD (initStats date now)).totalSessionDuration) := by
  have hc := countryStep_fields (applyKind (s0.getD (initStats date now)) e) e
  have hr := refererStep_fields u
    (countryStep (applyKind (s0.getD (initStats date now)) e) e) e
  have hts : (updateStats u now date s0 e).totalSessionDuration
      = (applyKind (s0.getD (initStats date now)) e).totalSessionDuration := by
    show (refererStep u (countryStep (applyKind (s0.getD (initStats date now)) e) e) e).totalSessionDuration
      = (applyKind (s0.getD (initStats date now)) e).totalSessionDuration
    rw [hr.2.2, hc.2.2]
  rw [applyKind_session_end (s0.getD (initStats date now)) e h] at hts
  constructor
  · intro d hd
    rw [hts, hd]
    by_cases hz : d = 0
    · subst hz; simp
    · simp [hz]
  · intro hd
    rw [hts, hd]

theorem session_end_duration_fold_witness :
    (updateStats exampleHost 0 "2026-01-01" (some (initStats "2026-01-01" 0))
        sessionEndEvent).totalSessionDuration = 1500 :=
  ((session_end_duration_fold exampleHost 0 "2026-01-01" (some (initStats "2026-01-01" 0))
      sessionEndEvent rfl).1 1500 rfl).trans (by decide)

/-- C5: folding the same `page_view` event twice into an aggregate increases
`pageViews` by exactly 2 but the size of `uniqueVisitors` by at most 1 — the
visitor-hash insertion is idempotent. -/
theorem page_view_double_fold (u : String → Option String) (n1 n2 : Nat) (date : String)
    (s : Stats) (e : EventRecord) (h : e.event = "page_view") :
    (updateStats u n2 date (some (updateStats u n1 date (some s) e)) e).pageViews
        = s.pageViews + 2 ∧
    (updateStats u n2 date (some (updateStats u n1 date (some s) e)) e).uniqueVisitors.length
        ≤ s.uniqueVisitors.length + 1 := by
  have h1 := updateStats_page_view u n1 date (some s) e h
  have h2 := updateStats_page_view u n2 date (some (updateStats u n1 date (some s) e)) e h
  simp only [Option.getD_some] at h1 h2
  constructor
  · rw [h2.1, h1.1]
  · rw [h2.2, h1.2, addUnique_of_mem (self_mem_addUnique _ _)]
    exact length_addUnique_le _ _

theorem page_view_double_fold_witness :
    (updateStats exampleHost 0 "2026-01-01"
        (some (updateStats exampleHost 0 "2026-01-01" (some (initStats "2026-01-01" 0))
          (mkEvent "page_view" 0 "a")))
        (mkEvent "page_view" 0 "a")).pageViews = 2 ∧
    (updateStats exampleHost 0 "2026-01-01"
        (some (updateStats exampleHost 0 "2026-01-01" (some (initStats "2026-01-01" 0))
          (mkEvent "page_view" 0 "a")))
        (mkEvent "page_view" 0 "a")).uniqueVisitors.length ≤ 1 := by
  have h := page_view_double_fold exampleHost 0 0 "2026-01-01" (initStats "2026-01-01" 0)
    (mkEvent "page_view" 0 "a") rfl
  exact ⟨h.1, h.2⟩

/-! ### Field bookkeeping for the realtime pass -/

theorem rtActiveStep_pv (t5 : Nat) (a : RealtimeAcc) (e : EventRecord) :
    (rtActiveStep t5 a e).recentPageViews = a.recentPageViews := by
  unfold rtActiveStep; split <;> rfl

theorem rtActiveStep_hovers (t5 : Nat) (a : RealtimeAcc) (e : EventRecord) :
    (rtActiveStep t5 a e).recentHovers = a.recentHovers := by
  unfold rtActiveStep; split <;> rfl

theorem rtActiveStep_clicks (t5 : Nat) (a : RealtimeAcc) (e : EventRecord) :
    (rtActiveStep t5 a e).recentClicks = a.recentClicks := by
  unfold rtActiveStep; split <;> rfl

theorem rtPageViewStep_active (a : RealtimeAcc) (e : EventRecord) :
    (rtPageViewStep a e).activeVisitors = a.activeVisitors := by
  unfold rtPageViewStep; split <;> rfl

theorem rtPageViewStep_hovers (a : RealtimeAcc) (e : EventRecord) :
    (rtPageViewStep a e).recentHovers = a.recentHovers := by
  unfold rtPageViewStep; split <;> rfl

theorem rtPageViewStep_clicks (a : RealtimeAcc) (e : EventRecord) :
    (rtPageViewStep a e).recentClicks = a.recentClicks := by
  unfold rtPageViewStep; split <;> rfl

theorem rtHoverStep_active (a : RealtimeAcc) (e : EventRecord) :
    (rtHoverStep a e).activeVisitors = a.activeVisitors := by
  unfold rtHoverStep; repeat' split
  all_goals rfl

theorem rtHoverStep_pv (a : RealtimeAcc) (e : EventRecord) :
    (rtHoverStep a e).recentPageViews = a.recentPageViews := by
  unfold rtHoverStep; repeat' split
  all_goals rfl

theorem rtHoverStep_clicks (a : RealtimeAcc) (e : EventRecord) :
    (rtHoverStep a e).recentClicks = a.recentClicks := by
  unfold rtHoverStep; repeat' split
  all_goals rfl

theorem rtClickStep_active (a : RealtimeAcc) (e : EventRecord) :
    (rtClickStep a e).activeVisitors = a.activeVisitors := by
  unfold rtClickStep; repeat' split
  all_goals rfl

theorem rtClickStep_pv (a : RealtimeAcc) (e : EventRecord) :
    (rtClickStep a e).recentPageViews = a.recentPageViews := by
  unfold rtClickStep; repeat' split
  all_goals rfl

theorem rtClickStep_hovers (a : RealtimeAcc) (e : EventRecord) :
    (rtClickStep a e).recentHovers = a.recentHovers := by
  unfold rtClickStep; repeat' split
  all_goals rfl

theorem incIfKnown_voice (m : CardNat) (c : String) :
    (m.incIfKnown c).voice = m.voice + (if c = "voice" then 1 else 0) := by
  unfold CardNat.incIfKnown
  by_cases h1 : c = "voice"
  · simp [h1]
  · rw [if_neg h1, if_neg h1]
    by_cases h2 : c = "value"
    · simp [h2]
    · rw [if_neg h2]
      by_cases h3 : c = "agent"
      · simp [h3]
      · rw [if_neg h3]
        omega

theorem incIfKnown_value (m : CardNat) (c : String) :
    (m.incIfKnown c).value = m.value + (if c = "value" then 1 else 0) := by
  unfold CardNat.incIfKnown
  by_cases h1 : c = "voice"
  · simp [h1]
  · rw [if_neg h1]
    by_cases h2 : c = "value"
    · simp [h2]
    · rw [if_neg h2, if_neg h2]
      by_cases h3 : c = "agent"
      · simp [h3]
      · rw [if_neg h3]
        omega

theorem incIfKnown_agent (m : CardNat) (c : String) :
    (m.incIfKnown c).agent = m.agent + (if c = "agent" then 1 else 0) := by
  unfold CardNat.incIfKnown
  by_cases h1 : c = "voice"
  · simp [h1]
  · rw [if_neg h1]
    by_cases h2 : c = "value"
    · simp [h2]
    · rw [if_neg h2]
      by_cases h3 : c = "agent"
      · simp [h3]
      · rw [if_neg h3, if_neg h3]
        omega

theorem realtimeStep_active (t5 : Nat) (a : RealtimeAcc) (e : EventRecord) :
    (realtimeStep t5 a e).activeVisitors
      = if inWindow t5 e then addUnique a.activeVisitors e.visitorHash
        else a.activeVisitors := by
  have h1 : (realtimeStep t5 a e).activeVisitors = (rtActiveStep t5 a e).activeVisitors :=
    (rtClickStep_active _ _).trans ((rtHoverStep_active _ _).trans (rtPageViewStep_active _ _))
  rw [h1]
  unfold rtActiveStep inWindow
  by_cases h : t5 ≤ e.timestamp
  · simp [h]
  · simp [h]

theorem realtimeStep_pv (t5 : Nat) (a : RealtimeAcc) (e : EventRecord) :
    (realtimeStep t5 a e).recentPageViews
      = a.recentPageViews + (if isPageView e then 1 else 0) := by
  have h1 : (realtimeStep t5 a e).recentPageViews
      = (rtPageViewStep (rtActiveStep t5 a e) e).recentPageViews :=
    (rtClickStep_pv _ _).trans (rtHoverStep_pv _ _)
  rw [h1]
  unfold rtPageViewStep isPageView
  by_cases h : e.event = "page_view"
  · simp [h, rtActiveStep_pv]
  · simp [h, rtActiveStep_pv]

theorem realtimeStep_hovers_voice (t5 : Nat) (a : RealtimeAcc) (e : EventRecord) :
    (realtimeStep t5 a e).recentHovers.voice
      = a.recentHovers.voice + (if isHoverOn "voice" e then 1 else 0) := by
  have h1 : (realtimeStep t5 a e).recentHovers
      = (rtHoverStep (rtPageViewStep (rtActiveStep t5 a e) e) e).recentHovers :=
    rtClickStep_hovers _ _
  have h2 : (rtPageViewStep (rtActiveStep t5 a e) e).recentHovers = a.recentHovers :=
    (rtPageViewStep_hovers _ _).trans (rtActiveStep_hovers _ _ _)
  rw [h1]
  unfold rtHoverStep isHoverOn
  by_cases h : e.event = "card_hover_start"
  · rw [if_pos h]
    cases hcard : e.card with
    | none => simp [h, hcard, h2]
    | some c =>
      by_cases hc : c = ""
      · simp [h, hcard, hc, h2]
      · simp [h, hcard, hc, h2, incIfKnown_voice]
  · rw [if_neg h]
    simp [h, h2]

theorem realtimeStep_hovers_value (t5 : Nat) (a : RealtimeAcc) (e : EventRecord) :
    (realtimeStep t5 a e).recentHovers.value
      = a.recentHovers.value + (if isHoverOn "value" e then 1 else 0) := by
  have h1 : (realtimeStep t5 a e).recentHovers
      = (rtHoverStep (rtPageViewStep (rtActiveStep t5 a e) e) e).recentHovers :=
    rtClickStep_hovers _ _
  have h2 : (rtPageViewStep (rtActiveStep t5 a e) e).recentHovers = a.recentHovers :=
    (rtPageViewStep_hovers _ _).trans (rtActiveStep_hovers _ _ _)
  rw [h1]
  unfold rtHoverStep isHoverOn
  by_cases h : e.event = "card_hover_start"
  · rw [if_pos h]
    cases hcard : e.card with
    | none => simp [h, hcard, h2]
    | some c =>
      by_cases hc : c = ""
      · simp [h, hcard, hc, h2]
      · simp [h, hcard, hc, h2, incIfKnown_value]
  · rw [if_neg h]
    simp [h, h2]

theorem realtimeStep_hovers_agent (t5 : Nat) (a : RealtimeAcc) (e : EventRecord) :
    (realtimeStep t5 a e).recentHovers.agent
      = a.recentHovers.agent + (if isHoverOn "agent" e then 1 else 0) := by
  have h1 : (realtimeStep t5 a e).recentHovers
      = (rtHoverStep (rtPageViewStep (rtActiveStep t5 a e) e) e).recentHovers :=
    rtClickStep_hovers _ _
  have h2 : (rtPageViewStep (rtActiveStep t5 a e) e).recentHovers = a.recentHovers :=
    (rtPageViewStep_hovers _ _).trans (rtActiveStep_hovers _ _ _)
  rw [h1]
  unfold rtHoverStep isHoverOn
  by_cases h : e.event = "card_hover_start"
  · rw [if_pos h]
    cases hcard : e.card with
    | none => simp [h, hcard, h2]
    | some c =>
      by_cases hc : c = ""
      · simp [h, hcard, hc, h2]
      · simp [h, hcard, hc, h2, incIfKnown_agent]
  · rw [if_neg h]
    simp [h, h2]

theorem realtimeStep_clicks_voice (t5 : Nat) (a : RealtimeAcc) (e : EventRecord) :
    (realtimeStep t5 a e).recentClicks.voice
      = a.recentClicks.voice + (if isClickOn "voice" e then 1 else 0) := by
  have h2 : (rtHoverStep (rtPageViewStep (rtActiveStep t5 a e) e) e).recentClicks
      = a.recentClicks :=
    (rtHoverStep_clicks _ _).trans ((rtPageViewStep_clicks _ _).trans (rtActiveStep_clicks _ _ _))
  show (rtClickStep (rtHoverStep (rtPageViewStep (rtActiveStep t5 a e) e) e) e).recentClicks.voice = _
  unfold rtClickStep isClickOn
  by_cases h : e.event = "card_click"
  · rw [if_pos h]
    cases hcard : e.card with
    | none => simp [h, hcard, h2]
    | some c =>
      by_cases hc : c = ""
      · simp [h, hcard, hc, h2]
      · simp [h, hcard, hc, h2, incIfKnown_voice]
  · rw [if_neg h]
    simp [h, h2]

theorem realtimeStep_clicks_value (t5 : Nat) (a : RealtimeAcc) (e : EventRecord) :
    (realtimeStep t5 a e).recentClicks.value
      = a.recentClicks.value + (if isClickOn "value" e then 1 else 0) := by
  have h2 : (rtHoverStep (rtPageViewStep (rtActiveStep t5 a e) e) e).recentClicks
      = a.recentClicks :=
    (rtHoverStep_clicks _ _).trans ((rtPageViewStep_clicks _ _).trans (rtActiveStep_clicks _ _ _))
  show (rtClickStep (rtHoverStep (rtPageViewStep (rtActiveStep t5 a e) e) e) e).recentClicks.value = _
  unfold rtClickStep isClickOn
  by_cases h : e.event = "card_click"
  · rw [if_pos h]
    cases hcard : e.card with
    | none => simp [h, hcard, h2]
    | some c =>
      by_cases hc : c = ""
      · simp [h, hcard, hc, h2]
      · simp [h, hcard, hc, h2, incIfKnown_value]
  · rw [if_neg h]
    simp [h, h2]

theorem realtimeStep_clicks_agent (t5 : Nat) (a : RealtimeAcc) (e : EventRecord) :
    (realtimeStep t5 a e).recentClicks.agent
      = a.recentClicks.agent + (if isClickOn "agent" e then 1 else 0) := by
  have h2 : (rtHoverStep (rtPageViewStep (rtActiveStep t5 a e) e) e).recentClicks
      = a.recentClicks :=
    (rtHoverStep_clicks _ _).trans ((rtPageViewStep_clicks _ _).trans (rtActiveStep_clicks _ _ _))
  show (rtClickStep (rtHoverStep (rtPageViewStep (rtActiveStep t5 a e) e) e) e).recentClicks.agent = _
  unfold rtClickStep isClickOn
  by_cases h : e.event = "card_click"
  · rw [if_pos h]
    cases hcard : e.card with
    | none => simp [h, hcard, h2]
    | some c =>
      by_cases hc : c = ""
      · simp [h, hcard, hc, h2]
      · simp [h, hcard, hc, h2, incIfKnown_agent]
  · rw [if_neg h]
    simp [h, h2]

theorem foldl_realtimeStep_active (t5 : Nat) (l : List EventRecord) :
    ∀ a : RealtimeAcc, (l.foldl (realtimeStep t5) a).activeVisitors
      = ((l.filter (inWindow t5)).map (fun e => e.visitorHash)).foldl
          addUnique a.activeVisitors := by
  induction l with
  | nil => intro a; rfl
  | cons e l ih =>
    intro a
    simp only [List.foldl_cons, List.filter_cons]
    by_cases h : inWindow t5 e
    · rw [if_pos h, List.map_cons, List.foldl_cons, ih]
      have hstep : (realtimeStep t5 a e).activeVisitors
          = addUnique a.activeVisitors e.visitorHash := by
        rw [realtimeStep_active, if_pos h]
      rw [hstep]
    · rw [if_neg h, ih]
      have hstep : (realtimeStep t5 a e).activeVisitors = a.activeVisitors := by
        rw [realtimeStep_active, if_neg h]
      rw [hstep]

theorem foldl_realtimeStep_pv (t5 : Nat) (l : List EventRecord) :
    ∀ a : RealtimeAcc, (l.foldl (realtimeStep t5) a).recentPageViews
      = a.recentPageViews + l.countP isPageView := by
  induction l with
  | nil => intro a; simp
  | cons e l ih =>
    intro a
    simp only [List.foldl_cons, List.countP_cons]
    rw [ih, realtimeStep_pv]
    by_cases h : isPageView e
    · simp only [h, if_pos rfl]
      omega
    · simp [h]

theorem foldl_realtimeStep_hovers_voice (t5 : Nat) (l : List EventRecord) :
    ∀ a : RealtimeAcc, (l.foldl (realtimeStep t5) a).recentHovers.voice
      = a.recentHovers.voice + l.countP (isHoverOn "voice") := by
  induction l with
  | nil => intro a; simp
  | cons e l ih =>
    intro a
    simp only [List.foldl_cons, List.countP_cons]
    rw [ih, realtimeStep_hovers_voice]
    by_cases h : isHoverOn "voice" e
    · simp only [h, if_pos rfl]
      omega
    · simp [h]

theorem foldl_realtimeStep_hovers_value (t5 : Nat) (l : List EventRecord) :
    ∀ a : RealtimeAcc, (l.foldl (realtimeStep t5) a).recentHovers.value
      = a.recentHovers.value + l.countP (isHoverOn "value") := by
  induction l with
  | nil => intro a; simp
  | cons e l ih =>
    intro a
    simp only [List.foldl_cons, List.countP_cons]
    rw [ih, realtimeStep_hovers_value]
    by_cases h : isHoverOn "value" e
    · simp only [h, if_pos rfl]
      omega
    · simp [h]

theorem foldl_realtimeStep_hovers_agent (t5 : Nat) (l : List EventRecord) :
    ∀ a : RealtimeAcc, (l.foldl (realtimeStep t5) a).recentHovers.agent
      = a.recentHovers.agent + l.countP (isHoverOn "agent") := by
  induction l with
  | nil => intro a; simp
  | cons e l ih =>
    intro a
    simp only [List.foldl_cons, List.countP_cons]
    rw [ih, realtimeStep_hovers_agent]
    by_cases h : isHoverOn "agent" e
    · simp only [h, if_pos rfl]
      omega
    · simp [h]

theorem foldl_realtimeStep_clicks_voice (t5 : Nat) (l : List EventRecord) :
    ∀ a : RealtimeAcc, (l.foldl (realtimeStep t5) a).recentClicks.voice
      = a.recentClicks.voice + l.countP (isClickOn "voice") := by
  induction l with
  | nil => intro a; simp
  | cons e l ih =>
    intro a
    simp only [List.foldl_cons, List.countP_cons]
    rw [ih, realtimeStep_clicks_voice]
    by_cases h : isClickOn "voice" e
    · simp only [h, if_pos rfl]
      omega
    · simp [h]

theorem foldl_realtimeStep_clicks_value (t5 : Nat) (l : List EventRecord) :
    ∀ a : RealtimeAcc, (l.foldl (realtimeStep t5) a).recentClicks.value
      = a.recentClicks.value + l.countP (isClickOn "value") := by
  induction l with
  | nil => intro a; simp
  | cons e l ih =>
    intro a
    simp only [List.foldl_cons, List.countP_cons]
    rw [ih, realtimeStep_clicks_value]
    by_cases h : isClickOn "value" e
    · simp only [h, if_pos rfl]
      omega
    · simp [h]

theorem foldl_realtimeStep_clicks_agent (t5 : Nat) (l : List EventRecord) :
    ∀ a : RealtimeAcc, (l.foldl (realtimeStep t5) a).recentClicks.agent
      = a.recentClicks.agent + l.countP (isClickOn "agent") := by
  induction l with
  | nil => intro a; simp
  | cons e l ih =>
    intro a
    simp only [List.foldl_cons, List.countP_cons]
    rw [ih, realtimeStep_clicks_agent]
    by_cases h : isClickOn "agent" e
    · simp only [h, if_pos rfl]
      omega
    · simp [h]

/-! ### The descending sort of the event stream -/

theorem perm_insertByTsDesc (e : EventRecord) (l : List EventRecord) :
    (insertByTsDesc e l).Perm (e :: l) := by
  induction l with
  | nil => exact List.Perm.refl _
  | cons x xs ih =>
    unfold insertByTsDesc
    split
    · exact (ih.cons x).trans (List.Perm.swap e x xs)
    · exact List.Perm.refl _

theorem perm_sortByTsDesc (l : List EventRecord) : (sortByTsDesc l).Perm l := by
  induction l with
  | nil => exact List.Perm.refl _
  | cons x xs ih => exact (perm_insertByTsDesc x (sortByTsDesc xs)).trans (ih.cons x)

theorem pairwise_insertByTsDesc (e : EventRecord) {l : List EventRecord}
    (h : l.Pairwise (fun a b => b.timestamp ≤ a.timestamp)) :
    (insertByTsDesc e l).Pairwise (fun a b => b.timestamp ≤ a.timestamp) := by
  induction l with
  | nil => simp [insertByTsDesc]
  | cons x xs ih =>
    rw [List.pairwise_cons] at h
    unfold insertByTsDesc
    split
    · rename_i hts
      rw [List.pairwise_cons]
      refine ⟨?_, ih h.2⟩
      intro y hy
      rcases List.mem_cons.mp ((perm_insertByTsDesc e xs).mem_iff.mp hy) with rfl | hy2
      · exact hts
      · exact h.1 y hy2
    · rename_i hts
      rw [List.pairwise_cons]
      refine ⟨?_, List.pairwise_cons.mpr h⟩
      intro y hy
      rcases List.mem_cons.mp hy with rfl | hy2
      · exact le_of_lt (lt_of_not_le hts)
      · exact le_trans (h.1 y hy2) (le_of_lt (lt_of_not_le hts))

theorem pairwise_sortByTsDesc (l : List EventRecord) :
    (sortByTsDesc l).Pairwise (fun a b => b.timestamp ≤ a.timestamp) := by
  induction l with
  | nil => simp [sortByTsDesc]
  | cons x xs ih => exact pairwise_insertByTsDesc x ih

/-- C4: over any retained 30-minute event set, the realtime report's
`activeVisitors` is the number of distinct visitor hashes among events with
timestamp at least `now - 5` minutes; page views and per-card hovers/clicks are
counted over the full retained set; `eventStream` is the full retained set
sorted descending by timestamp, truncated to the most recent 20 and projected
to `{event, card, timestamp, country}`; and when at most 20 events are retained
the stream keeps every event, so an event older than five minutes is excluded
only from the active-visitor count. -/
theorem realtime_report_spec (l : List EventRecord) (now fiveMinutesAgo : Nat) :
    (formatRealtimeResponse l now fiveMinutesAgo).activeVisitors
        = ((l.filter (inWindow fiveMinutesAgo)).map (fun e => e.visitorHash)).dedup.length ∧
    (formatRealtimeResponse l now fiveMinutesAgo).pageViews = l.countP isPageView ∧
    (formatRealtimeResponse l now fiveMinutesAgo).hovers.voice = l.countP (isHoverOn "voice") ∧
    (formatRealtimeResponse l now fiveMinutesAgo).hovers.value = l.countP (isHoverOn "value") ∧
    (formatRealtimeResponse l now fiveMinutesAgo).hovers.agent = l.countP (isHoverOn "agent") ∧
    (formatRealtimeResponse l now fiveMinutesAgo).clicks.voice = l.countP (isClickOn "voice") ∧
    (formatRealtimeResponse l now fiveMinutesAgo).clicks.value = l.countP (isClickOn "value") ∧
    (formatRealtimeResponse l now fiveMinutesAgo).clicks.agent = l.countP (isClickOn "agent") ∧
    (formatRealtimeResponse l now fiveMinutesAgo).eventStream
        = ((sortByTsDesc l).take 20).map projectStreamEvent ∧
    (sortByTsDesc l).Perm l ∧
    (sortByTsDesc l).Pairwise (fun a b => b.timestamp ≤ a.timestamp) ∧
    (l.length ≤ 20 →
      (formatRealtimeResponse l now fiveMinutesAgo).eventStream
        = (sortByTsDesc l).map projectStreamEvent) := by
  refine ⟨?_, ?_, ?_, ?_, ?_, ?_, ?_, ?_, rfl, perm_sortByTsDesc l,
    pairwise_sortByTsDesc l, ?_⟩
  · show (l.foldl (realtimeStep fiveMinutesAgo) ⟨[], ⟨0, 0, 0⟩, ⟨0, 0, 0⟩, 0⟩).activeVisitors.length = _
    rw [foldl_realtimeStep_active]
    exact length_foldl_addUnique_nil _
  · show (l.foldl (realtimeStep fiveMinutesAgo) ⟨[], ⟨0, 0, 0⟩, ⟨0, 0, 0⟩, 0⟩).recentPageViews = _
    rw [foldl_realtimeStep_pv]
    simp
  · show (l.foldl (realtimeStep fiveMinutesAgo) ⟨[], ⟨0, 0, 0⟩, ⟨0, 0, 0⟩, 0⟩).recentHovers.voice = _
    rw [foldl_realtimeStep_hovers_voice]
    simp
  · show (l.foldl (realtimeStep fiveMinutesAgo) ⟨[], ⟨0, 0, 0⟩, ⟨0, 0, 0⟩, 0⟩).recentHovers.value = _
    rw [foldl_realtimeStep_hovers_value]
    simp
  · show (l.foldl (realtimeStep fiveMinutesAgo) ⟨[], ⟨0, 0, 0⟩, ⟨0, 0, 0⟩, 0⟩).recentHovers.agent = _
    rw [foldl_realtimeStep_hovers_agent]
    simp
  · show (l.foldl (realtimeStep fiveMinutesAgo) ⟨[], ⟨0, 0, 0⟩, ⟨0, 0, 0⟩, 0⟩).recentClicks.voice = _
    rw [foldl_realtimeStep_clicks_voice]
    simp
  · show (l.foldl (realtimeStep fiveMinutesAgo) ⟨[], ⟨0, 0, 0⟩, ⟨0, 0, 0⟩, 0⟩).recentClicks.value = _
    rw [foldl_realtimeStep_clicks_value]
    simp
  · show (l.foldl (realtimeStep fiveMinutesAgo) ⟨[], ⟨0, 0, 0⟩, ⟨0, 0, 0⟩, 0⟩).recentClicks.agent = _
    rw [foldl_realtimeStep_clicks_agent]
    simp
  · intro hlen
    show ((sortByTsDesc l).take 20).map projectStreamEvent = _
    rw [List.take_of_length_le (by rw [(perm_sortByTsDesc l).length_eq]; omega)]

theorem realtime_report_witness :
    (formatRealtimeResponse rtScenario 2000000 1700000).activeVisitors = 2 ∧
    projectStreamEvent rtOldEvent
      ∈ (formatRealtimeResponse rtScenario 2000000 1700000).eventStream := by
  obtain ⟨h1, -, -, -, -, -, -, -, -, -, -, h12⟩ :=
    realtime_report_spec rtScenario 2000000 1700000
  constructor
  · rw [h1]
    rfl
  · rw [h12 (by decide)]
    decide

/-! ### The summary merge and formatter claims -/

theorem foldl_mergeTotals_unique_le (l : List Stats) :
    ∀ t : Totals, ((l.foldl mergeTotals t).uniqueVisitors).length
      ≤ t.uniqueVisitors.length + (l.map (fun s => s.uniqueVisitors.length)).sum := by
  induction l with
  | nil => intro t; simp
  | cons s l ih =>
    intro t
    simp only [List.foldl_cons, List.map_cons, List.sum_cons]
    have hrec := ih (mergeTotals t s)
    have hone : (mergeTotals t s).uniqueVisitors.length
        ≤ t.uniqueVisitors.length + s.uniqueVisitors.length := by
      show (s.uniqueVisitors.foldl addUnique t.uniqueVisitors).length ≤ _
      exact length_foldl_addUnique_le _ _
    omega

/-- C6: the merged `uniqueVisitors` count of the summary path is at most the
sum of the per-day unique-visitor counts — the merge is a set union of the
per-day visitor-hash lists, not a sum. -/
theorem summary_merge_unique_le (dateStr : Nat → String) (store : String → Option Stats)
    (range : String) :
    (summaryTotals dateStr store range).uniqueVisitors.length
      ≤ ((((List.range (daysForRange range)).map dateStr).filterMap store).map
          (fun s => s.uniqueVisitors.length)).sum := by
  unfold summaryTotals
  have h := foldl_mergeTotals_unique_le
    (((List.range (daysForRange range)).map dateStr).filterMap store) initTotals
  simpa [initTotals] using h

/-- C7: every guarded rate of the summary formatter is 0 when its denominator
is 0 — `bounceRate` with no sessions or no page views, per-card `avgHoverTime`
and `clickRate` with no hovers on that card, `share` with no hovers anywhere
(the model is integer-valued and total, so no NaN/undefined can arise). -/
theorem summary_zero_denominators (t : Totals) (range : String) :
    (t.sessions = 0 ∨ t.pageViews = 0 → (formatSummaryResponse t range).bounceRate = 0) ∧
    (t.cardHovers.voice = 0 →
      (formatSummaryResponse t range).cardVoice.avgHoverTime = 0 ∧
      (formatSummaryResponse t range).cardVoice.clickRate = 0) ∧
    (t.cardHovers.value = 0 →
      (formatSummaryResponse t range).cardValue.avgHoverTime = 0 ∧
      (formatSummaryResponse t range).cardValue.clickRate = 0) ∧
    (t.cardHovers.agent = 0 →
      (formatSummaryResponse t range).cardAgent.avgHoverTime = 0 ∧
      (formatSummaryResponse t range).cardAgent.clickRate = 0) ∧
    (totalHoversOf t = 0 →
      (formatSummaryResponse t range).cardVoice.share = 0 ∧
      (formatSummaryResponse t range).cardValue.share = 0 ∧
      (formatSummaryResponse t range).cardAgent.share = 0) ∧
    (t.sessions = 0 → (formatSummaryResponse t range).avgSessionDuration = 0) := by
  refine ⟨?_, ?_, ?_, ?_, ?_, ?_⟩
  · rintro (h | h) <;> simp [formatSummaryResponse, bounceRateOf, h]
  · intro h
    constructor <;> simp [formatSummaryResponse, cardEngagementOf, h]
  · intro h
    constructor <;> simp [formatSummaryResponse, cardEngagementOf, h]
  · intro h
    constructor <;> simp [formatSummaryResponse, cardEngagementOf, h]
  · intro h
    refine ⟨?_, ?_, ?_⟩ <;> simp [formatSummaryResponse, cardEngagementOf, h]
  · intro h
    simp [formatSummaryResponse, avgSessionDurationOf, h]

theorem summary_zero_denominators_witness :
    (formatSummaryResponse initTotals "7d").bounceRate = 0 ∧
    (formatSummaryResponse initTotals "7d").cardVoice.avgHoverTime = 0 ∧
    (formatSummaryResponse initTotals "7d").cardVoice.clickRate = 0 ∧
    (formatSummaryResponse initTotals "7d").cardAgent.share = 0 := by
  have h := summary_zero_denominators initTotals "7d"
  exact ⟨h.1 (Or.inl rfl), (h.2.1 rfl).1, (h.2.1 rfl).2, (h.2.2.2.2.1 rfl).2.2⟩

/-! ### Peak hour -/

theorem le_listMax (l : List Nat) : ∀ x ∈ l, x ≤ listMax l := by
  induction l with
  | nil => intro x hx; cases hx
  | cons y l ih =>
    intro x hx
    rcases List.mem_cons.mp hx with rfl | hx2
    · exact Nat.le_max_left _ _
    · exact le_trans (ih x hx2) (Nat.le_max_right _ _)

theorem listMax_mem {l : List Nat} (h : l ≠ []) : listMax l ∈ l := by
  induction l with
  | nil => exact absurd rfl h
  | cons y l ih =>
    by_cases hl : l = []
    · subst hl
      simp [listMax]
    · have hm := ih hl
      show max y (listMax l) ∈ y :: l
      rcases Nat.le_total y (listMax l) with hle | hle
      · rw [max_eq_right hle]
        exact List.mem_cons_of_mem _ hm
      · rw [max_eq_left hle]
        exact List.mem_cons_self _ _

theorem getD_ne_of_lt_indexOf :
    ∀ (l : List Nat) (a j : Nat), j < l.indexOf a → l.getD j 0 ≠ a := by
  intro l
  induction l with
  | nil => intro a j h; simp [List.indexOf] at h
  | cons x xs ih =>
    intro a j h
    by_cases hx : x = a
    · subst hx
      rw [List.indexOf_cons_self] at h
      exact absurd h (Nat.not_lt_zero j)
    · rw [List.indexOf_cons_ne _ hx] at h
      cases j with
      | zero => rw [List.getD_cons_zero]; exact hx
      | succ j =>
        rw [List.getD_cons_succ]
        exact ih a j (Nat.lt_of_succ_lt_succ h)

/-- C8: with a 24-slot hourly array, the summary formatter's `peakHour` is a
valid index holding the array maximum, every strictly earlier index holds a
strictly smaller value (ties resolve to the first occurrence), and on the
all-zero 24-slot array `peakHour` is 0. -/
theorem summary_peak_hour (t : Totals) (range : String)
    (h : t.hourlyActivity.length = 24) :
    (formatSummaryResponse t range).peakHour < 24 ∧
    t.hourlyActivity.getD (formatSummaryResponse t range).peakHour 0
      = listMax t.hourlyActivity ∧
    (∀ i, i < 24 → t.hourlyActivity.getD i 0
      ≤ t.hourlyActivity.getD (formatSummaryResponse t range).peakHour 0) ∧
    (∀ j, j < (formatSummaryResponse t range).peakHour →
      t.hourlyActivity.getD j 0
        < t.hourlyActivity.getD (formatSummaryResponse t range).peakHour 0) ∧
    peakHourOf (List.replicate 24 0) = 0 := by
  have hne : t.hourlyActivity ≠ [] := by
    intro hnil
    rw [hnil] at h
    exact absurd h (by decide)
  have hmem : listMax t.hourlyActivity ∈ t.hourlyActivity := listMax_mem hne
  have hidx : t.hourlyActivity.indexOf (listMax t.hourlyActivity)
      < t.hourlyActivity.length := List.indexOf_lt_length.mpr hmem
  have hpk : (formatSummaryResponse t range).peakHour
      = t.hourlyActivity.indexOf (listMax t.hourlyActivity) := rfl
  have hget : t.hourlyActivity.getD (formatSummaryResponse t range).peakHour 0
      = listMax t.hourlyActivity := by
    rw [hpk, List.getD_eq_get _ _ hidx, List.indexOf_get hidx]
  refine ⟨by rw [hpk]; omega, hget, ?_, ?_, by decide⟩
  · intro i hi
    rw [hget]
    have hi2 : i < t.hourlyActivity.length := by omega
    rw [List.getD_eq_get _ _ hi2]
    exact le_listMax _ _ (List.get_mem _ _ _)
  · intro j hj
    rw [hget]
    have hj2 : j < t.hourlyActivity.length := by
      rw [hpk] at hj
      omega
    have hle : t.hourlyActivity.getD j 0 ≤ listMax t.hourlyActivity := by
      rw [List.getD_eq_get _ _ hj2]
      exact le_listMax _ _ (List.get_mem _ _ _)
    have hne2 : t.hourlyActivity.getD j 0 ≠ listMax t.hourlyActivity :=
      getD_ne_of_lt_indexOf _ _ _ (by rw [hpk] at hj; exact hj)
    exact lt_of_le_of_ne hle hne2

theorem summary_peak_hour_witness :
    (formatSummaryResponse initTotals "30d").peakHour < 24 ∧
    peakHourOf (List.replicate 24 0) = 0 := by
  have h := summary_peak_hour initTotals "30d" (by decide)
  exact ⟨h.1, h.2.2.2.2⟩

/-! ### Bounce rate -/

/-- C9 counterexample: with 1 session, 1000 page views and 1001 card clicks —
total clicks strictly greater than page views — the bounce rate is 0, not
negative: `Math.round((1 - 1001/1000) * 100) = Math.round(-0.1) = -0`. -/
theorem bounce_rate_overshoot_not_negative :
    overshootTotals.pageViews < totalClicksOf overshootTotals ∧
    0 < overshootTotals.sessions ∧ 0 < overshootTotals.pageViews ∧
    (formatSummaryResponse overshootTotals "7d").bounceRate = 0 := by
  refine ⟨by decide, by decide, by decide, by decide⟩

/-- C9 (amended): with sessions and page views both positive, the bounce rate
is never above 100 and is not clamped below 0; when total clicks exceed page
views it is at most 0, and it is strictly negative exactly in the regime where
the exact value `(1 - clicks/views) * 100` rounds below zero, namely when
`200 * (clicks - views) > views` — a smaller overshoot rounds to 0. -/
theorem bounce_rate_bounds (t : Totals) (range : String)
    (h1 : 0 < t.sessions) (h2 : 0 < t.pageViews) :
    (formatSummaryResponse t range).bounceRate ≤ 100 ∧
    (t.pageViews < totalClicksOf t → (formatSummaryResponse t range).bounceRate ≤ 0) ∧
    ((formatSummaryResponse t range).bounceRate < 0 ↔
      200 * ((totalClicksOf t : Int) - (t.pageViews : Int)) > (t.pageViews : Int)) := by
  have hv : (0 : Int) < (t.pageViews : Int) := by exact_mod_cast h2
  have hc : (0 : Int) ≤ (totalClicksOf t : Int) := Int.natCast_nonneg _
  have hq : (0 : Int) < 2 * (t.pageViews : Int) := by omega
  have hbr : (formatSummaryResponse t range).bounceRate
      = (2 * (((t.pageViews : Int) - (totalClicksOf t : Int)) * 100) + (t.pageViews : Int))
          / (2 * (t.pageViews : Int)) := by
    show bounceRateOf t = _
    unfold bounceRateOf jsRound
    rw [if_pos ⟨h1, h2⟩, Int.fdiv_eq_ediv _ (le_of_lt hq)]
  rw [hbr]
  refine ⟨?_, ?_, ?_⟩
  · have hlt := (Int.ediv_lt_iff_lt_mul hq).mpr
      (show 2 * (((t.pageViews : Int) - (totalClicksOf t : Int)) * 100) + (t.pageViews : Int)
          < 101 * (2 * (t.pageViews : Int)) by nlinarith)
    have h2lt := Int.lt_iff_add_one_le.mp hlt
    linarith
  · intro hcv
    have hcv2 : (t.pageViews : Int) < (totalClicksOf t : Int) := by exact_mod_cast hcv
    have hlt := (Int.ediv_lt_iff_lt_mul hq).mpr
      (show 2 * (((t.pageViews : Int) - (totalClicksOf t : Int)) * 100) + (t.pageViews : Int)
          < 1 * (2 * (t.pageViews : Int)) by nlinarith)
    have h2lt := Int.lt_iff_add_one_le.mp hlt
    linarith
  · constructor
    · intro hneg
      by_contra hnot
      push_neg at hnot
      have ha : (0 : Int)
          ≤ 2 * (((t.pageViews : Int) - (totalClicksOf t : Int)) * 100) + (t.pageViews : Int) := by
        nlinarith
      exact absurd hneg (not_lt.mpr (Int.ediv_nonneg ha (le_of_lt hq)))
    · intro hover
      exact (Int.ediv_lt_iff_lt_mul hq).mpr (by nlinarith)

theorem bounce_rate_bounds_witness :
    (formatSummaryResponse steepOvershootTotals "7d").bounceRate < 0 ∧
    (formatSummaryResponse steepOvershootTotals "7d").bounceRate ≤ 100 := by
  have h := bounce_rate_bounds steepOvershootTotals "7d" (by decide) (by decide)
  exact ⟨h.2.2.mpr (by decide), h.1⟩

/-- C10: every range string other than exactly `"1d"` and `"7d"` — including
`"90d"` or garbage — falls through to the 30-day window; the summary path
treats it exactly like `"30d"` instead of rejecting it (only the echoed
`range` field differs). -/
theorem range_fallback_thirty (dateStr : Nat → String) (store : String → Option Stats)
    (range : String) (h1 : range ≠ "1d") (h2 : range ≠ "7d") :
    daysForRange range = 30 ∧
    summaryTotals dateStr store range = summaryTotals dateStr store "30d" ∧
    getSummaryStats dateStr store range
      = { getSummaryStats dateStr store "30d" with range := range } := by
  have hd : daysForRange range = 30 := by
    unfold daysForRange
    rw [if_neg h1, if_neg h2]
  have ht : summaryTotals dateStr store range = summaryTotals dateStr store "30d" := by
    unfold summaryTotals
    rw [hd]
    rfl
  refine ⟨hd, ht, ?_⟩
  unfold getSummaryStats
  rw [ht]
  rfl

theorem range_fallback_thirty_witness :
    daysForRange "90d" = 30 ∧
    summaryTotals (fun _ => "") (fun _ => none) "90d"
      = summaryTotals (fun _ => "") (fun _ => none) "30d" := by
  have h := range_fallback_thirty (fun _ => "") (fun _ => none) "90d"
    (by decide) (by decide)
  exact ⟨h.1, h.2.1⟩

end Soil
